import Mathlib

/-!
Shallow embedding of the inference-process supervisor of `vm_api_server.py`
(POINTER-Pro).  The module-level dictionary `running_inference` is modelled
as an association list from dataset id to job record; the OS facilities the
code calls (`psutil.pid_exists`, `os.path.exists`, `os.getpgid`,
`os.killpg`, `psutil.Process(...).cpu_percent/memory_info`) are modelled as
oracles supplied in an environment structure, with `Option`/`Bool` fields
standing for calls that may raise (every such raise is caught by the
source's `try/except` blocks, which the definitions reproduce).
-/

namespace VMApi

/-- One value of the `running_inference` dictionary: pid, ISO start
timestamp, bundle path and log path, exactly the fields written at
`running_inference[dataset_id] = {...}` (the `process` handle object is
not observable beyond its pid and is omitted). -/
structure JobRecord where
  pid : Nat
  started : String
  bundle_path : String
  log_path : String
  deriving Repr, DecidableEq

/-- The `running_inference` module-level dict, as an association list in
insertion order (Python dicts preserve insertion order). -/
abbrev Registry := List (String × JobRecord)

/-- `dataset_id in running_inference` / `running_inference[dataset_id]`:
first binding for the key. -/
def lookupReg (r : Registry) (k : String) : Option JobRecord :=
  match r with
  | [] => none
  | (k', v) :: rest => if k' = k then some v else lookupReg rest k

/-- `del running_inference[dataset_id]`: drop every binding of the key (a
Python dict holds at most one). -/
def eraseReg (r : Registry) (k : String) : Registry :=
  match r with
  | [] => []
  | (k', v) :: rest =>
      if k' = k then eraseReg rest k else (k', v) :: eraseReg rest k

/-- `running_inference[dataset_id] = record`: replace the binding in place
if the key is present, else append (Python dict assignment keeps the
original position of an existing key). -/
def insertReg (r : Registry) (k : String) (v : JobRecord) : Registry :=
  match r with
  | [] => [(k, v)]
  | (k', v') :: rest =>
      if k' = k then (k, v) :: rest else (k', v') :: insertReg rest k v

/-- `DATA_DIR = os.path.expanduser("~/data")` (the expansion is
environment-dependent; the constant only needs to be a fixed string). -/
def DATA_DIR : String := "~/data"

/-- `os.path.join(DATA_DIR, dataset_id)`. -/
def dataset_dir (dataset_id : String) : String :=
  DATA_DIR ++ "/" ++ dataset_id

/-- `os.path.join(dataset_path, 'preprocessing_bundle.pkl')`. -/
def bundle_file (dataset_id : String) : String :=
  dataset_dir dataset_id ++ "/preprocessing_bundle.pkl"

/-- `os.path.join(dataset_path, 'inference.log')`. -/
def log_file (dataset_id : String) : String :=
  dataset_dir dataset_id ++ "/inference.log"

/-! ### start_inference -/

/-- Environment of one `start_inference` call: the OS liveness oracle, the
filesystem, the pid `subprocess.Popen` hands back and the
`datetime.now().isoformat()` reading. -/
structure StartEnv where
  pid_exists : Nat → Bool
  path_exists : String → Bool
  new_pid : Nat
  now : String

/-- Responses of `start_inference`: HTTP 409 `already_running` (with the
live pid), 404 `Dataset not found`, 404 `Preprocessing bundle not found`
(with the expected path), 200 `started` (with pid, bundle path, log
path). -/
inductive StartResult where
  | alreadyRunning (pid : Nat)
  | datasetNotFound
  | artifactMissing (expected_path : String)
  | started (pid : Nat) (bundle_path log_path : String)
  deriving Repr, DecidableEq

/-- HTTP status code attached to each `start_inference` response. -/
def start_http_status : StartResult → Nat
  | .alreadyRunning _ => 409
  | .datasetNotFound => 404
  | .artifactMissing _ => 404
  | .started _ _ _ => 200

/-- Observable outcome of a `start_inference` call: response, final
registry, pids of processes spawned during the call. -/
structure StartOutcome where
  result : StartResult
  registry : Registry
  launched : List Nat
  deriving Repr, DecidableEq

/-- Lines 439-501 of `start_inference`: the part after the
already-running check: dataset directory check, bundle check, launch,
registry insertion. -/
def start_inference_core (env : StartEnv) (reg : Registry)
    (dataset_id : String) : StartOutcome :=
  if env.path_exists (dataset_dir dataset_id) = false then
    ⟨.datasetNotFound, reg, []⟩
  else if env.path_exists (bundle_file dataset_id) = false then
    ⟨.artifactMissing (bundle_file dataset_id), reg, []⟩
  else
    ⟨.started env.new_pid (bundle_file dataset_id) (log_file dataset_id),
     insertReg reg dataset_id
       ⟨env.new_pid, env.now, bundle_file dataset_id, log_file dataset_id⟩,
     [env.new_pid]⟩

/-- `start_inference` (lines 402-507): if the registry holds the id and
its pid is alive, fail 409 with that pid; if it holds the id with a dead
pid, reap the stale entry and continue; then check dataset directory and
bundle, spawn, and record the new job. -/
def start_inference (env : StartEnv) (reg : Registry)
    (dataset_id : String) : StartOutcome :=
  match lookupReg reg dataset_id with
  | some info =>
      if env.pid_exists info.pid then
        ⟨.alreadyRunning info.pid, reg, []⟩
      else
        start_inference_core env (eraseReg reg dataset_id) dataset_id
  | none => start_inference_core env reg dataset_id

/-! ### get_inference_status -/

/-- Environment of one `get_inference_status` call: liveness oracle and
the metric sampler; `sample pid = none` models
`psutil.Process(pid).cpu_percent/memory_info` raising (process exited
mid-query), caught by the inner `try/except`. -/
structure StatusEnv where
  pid_exists : Nat → Bool
  sample : Nat → Option (Nat × Nat)

/-- Responses of `get_inference_status`: `not_running`, `stopped`
(process no longer running, entry reaped), `running` with pid, start
time, bundle path, log path, cpu percent and resident memory. -/
inductive StatusResult where
  | not_running
  | stopped
  | running (pid : Nat) (started bundle_path log_path : String)
      (cpu_percent memory_mb : Nat)
  deriving Repr, DecidableEq

/-- `get_inference_status` (lines 510-560): returns the response and the
registry after the call (lazy reap of a dead entry). -/
def get_inference_status (env : StatusEnv) (reg : Registry)
    (dataset_id : String) : StatusResult × Registry :=
  match lookupReg reg dataset_id with
  | none => (.not_running, reg)
  | some info =>
      if env.pid_exists info.pid = false then
        (.stopped, eraseReg reg dataset_id)
      else
        match env.sample info.pid with
        | some (c, m) =>
            (.running info.pid info.started info.bundle_path info.log_path
              c m, reg)
        | none =>
            (.running info.pid info.started info.bundle_path info.log_path
              0 0, reg)

/-! ### stop_inference -/

/-- The two signals `stop_inference` sends with `os.killpg`. -/
inductive Sig where
  | sigint
  | sigkill
  deriving Repr, DecidableEq

/-- One successful `os.killpg(pgid, sig)` delivery. -/
structure SignalEvent where
  pgid : Nat
  sig : Sig
  deriving Repr, DecidableEq

/-- Environment of one `stop_inference` call.  `pid_exists_before` is the
liveness check at line 582, `pid_exists_after` the re-check at line 598
after the two-second grace sleep.  `getpgid pid = none` models
`os.getpgid` raising (process gone); `sigint_raises`/`sigkill_raises`
model the respective `os.killpg` call raising.  Every raise lands in the
bare `except: pass`. -/
structure StopEnv where
  pid_exists_before : Nat → Bool
  pid_exists_after : Nat → Bool
  getpgid : Nat → Option Nat
  sigint_raises : Bool
  sigkill_raises : Bool

/-- The `try` block of lines 591-602: SIGINT to the process group, grace
sleep, liveness re-check, SIGKILL to the group if still alive; any raise
aborts the rest of the block and is swallowed.  Returns the list of
signals actually delivered. -/
def try_signal_group (env : StopEnv) (pid : Nat) : List SignalEvent :=
  match env.getpgid pid with
  | none => []
  | some pg =>
      if env.sigint_raises then []
      else if env.pid_exists_after pid then
        match env.getpgid pid with
        | none => [⟨pg, .sigint⟩]
        | some pg2 =>
            if env.sigkill_raises then [⟨pg, .sigint⟩]
            else [⟨pg, .sigint⟩, ⟨pg2, .sigkill⟩]
      else [⟨pg, .sigint⟩]

/-- Responses of `stop_inference`: 404 `not_running`, 200
`already_stopped` (entry existed, pid already dead; reaped), 200
`stopped`. -/
inductive StopResult where
  | not_running
  | already_stopped
  | stopped
  deriving Repr, DecidableEq

/-- HTTP status code attached to each `stop_inference` response. -/
def stop_http_status : StopResult → Nat
  | .not_running => 404
  | .already_stopped => 200
  | .stopped => 200

/-- Observable outcome of a `stop_inference` call. -/
structure StopOutcome where
  result : StopResult
  registry : Registry
  signals : List SignalEvent
  deriving Repr, DecidableEq

/-- `stop_inference` (lines 563-616): no entry → 404; entry with dead pid
→ reap, `already_stopped`; entry with live pid → two-phase signal
escalation inside `try/except`, then unconditionally delete the entry and
report `stopped`. -/
def stop_inference (env : StopEnv) (reg : Registry)
    (dataset_id : String) : StopOutcome :=
  match lookupReg reg dataset_id with
  | none => ⟨.not_running, reg, []⟩
  | some info =>
      if env.pid_exists_before info.pid = false then
        ⟨.already_stopped, eraseReg reg dataset_id, []⟩
      else
        ⟨.stopped, eraseReg reg dataset_id, try_signal_group env info.pid⟩

/-! ### list_running_inference -/

/-- One element of the `running_inference` array in the
`list_running_inference` response. -/
structure ListEntry where
  dataset_id : String
  pid : Nat
  started : String
  bundle_path : String
  deriving Repr, DecidableEq

/-- Membership of a key in the `dead_keys` list collected by the loop. -/
def containsKey (ks : List String) (k : String) : Bool :=
  match ks with
  | [] => false
  | k' :: rest => if k' = k then true else containsKey rest k

/-- `list_running_inference` (lines 619-655): one pass over the dict
partitions entries into the `active` response list and `dead_keys`; the
clean-up loop then deletes every dead key.  Deleting each key of
`dead_keys` from the dict is keeping exactly the bindings whose key is
not in `dead_keys`. -/
def list_running_inference (pid_exists : Nat → Bool) (reg : Registry) :
    List ListEntry × Registry :=
  let dead_keys := (reg.filter (fun p => !(pid_exists p.2.pid))).map Prod.fst
  (reg.filterMap (fun p =>
      if pid_exists p.2.pid then
        some ⟨p.1, p.2.pid, p.2.started, p.2.bundle_path⟩
      else none),
   reg.filter (fun p => !(containsKey dead_keys p.1)))

/-! ### dataset id generation (preprocess_images) -/

/-- Line 112: `dataset_id = f"dataset_{int(datetime.now().timestamp())}"`
applied to an integer number of seconds. -/
def gen_dataset_id (seconds : Nat) : String :=
  "dataset_" ++ toString seconds

/-- The same id generation with the clock read in milliseconds:
`int(...)` truncates the fractional-second POSIX timestamp, i.e. divides
the millisecond reading by 1000. -/
def dataset_id_at_millis (millis : Nat) : String :=
  gen_dataset_id (millis / 1000)

/-! ### Registry lemmas -/

theorem lookupReg_eraseReg_self (r : Registry) (k : String) :
    lookupReg (eraseReg r k) k = none := by
  induction r with
  | nil => rfl
  | cons p rest ih =>
    obtain ⟨k', v⟩ := p
    by_cases h : k' = k <;> simp [eraseReg, lookupReg, h, ih]

theorem lookupReg_insertReg_self (r : Registry) (k : String)
    (v : JobRecord) : lookupReg (insertReg r k v) k = some v := by
  induction r with
  | nil => simp [insertReg, lookupReg]
  | cons p rest ih =>
    obtain ⟨k', v'⟩ := p
    by_cases h : k' = k <;> simp [insertReg, lookupReg, h, ih]

theorem mem_of_lookupReg {r : Registry} {k : String} {v : JobRecord}
    (h : lookupReg r k = some v) : (k, v) ∈ r := by
  induction r with
  | nil => simp [lookupReg] at h
  | cons p rest ih =>
    obtain ⟨k', v'⟩ := p
    by_cases hk : k' = k
    · subst hk
      simp [lookupReg] at h
      simp [h]
    · simp [lookupReg, hk] at h
      exact List.mem_cons_of_mem _ (ih h)

theorem not_mem_of_lookupReg_none {r : Registry} {k : String}
    (h : lookupReg r k = none) : ∀ v, (k, v) ∉ r := by
  induction r with
  | nil => simp
  | cons p rest ih =>
    obtain ⟨k', v'⟩ := p
    by_cases hk : k' = k
    · subst hk; simp [lookupReg] at h
    · simp [lookupReg, hk] at h
      intro v hv
      rcases List.mem_cons.1 hv with h1 | h2
      · exact absurd (congrArg Prod.fst h1).symm hk
      · exact ih h v h2

theorem containsKey_of_mem {ks : List String} {k : String}
    (h : k ∈ ks) : containsKey ks k = true := by
  induction ks with
  | nil => simp at h
  | cons k' rest ih =>
    rcases List.mem_cons.1 h with h1 | h2
    · simp [containsKey, h1]
    · by_cases hk : k' = k <;> simp [containsKey, hk, ih h2]

theorem lookupReg_filter_out_key (r : Registry) (ks : List String)
    {k : String} (h : containsKey ks k = true) :
    lookupReg (r.filter (fun p => !(containsKey ks p.1))) k = none := by
  induction r with
  | nil => rfl
  | cons p rest ih =>
    obtain ⟨k', v'⟩ := p
    by_cases hk : k' = k
    · subst hk
      simp [List.filter, h, ih]
    · by_cases hc : containsKey ks k' = true
      · simp [List.filter, hc, ih]
      · simp only [List.filter]
        simp [hc, lookupReg, hk, ih]

theorem lookupReg_after_core_started {env : StartEnv} {reg : Registry}
    {dataset_id : String} {pid : Nat} {bp lp : String}
    (h : (start_inference_core env reg dataset_id).result =
      .started pid bp lp) :
    lookupReg (start_inference_core env reg dataset_id).registry dataset_id
      = some ⟨pid, env.now, bp, lp⟩ := by
  by_cases h1 : env.path_exists (dataset_dir dataset_id) = false
  · simp [start_inference_core, h1] at h
  · by_cases h2 : env.path_exists (bundle_file dataset_id) = false
    · simp [start_inference_core, h1, h2] at h
    · simp [start_inference_core, h1, h2] at h ⊢
      obtain ⟨hp, hb, hl⟩ := h
      rw [hp, hb, hl]
      exact lookupReg_insertReg_self _ _ _

theorem lookupReg_after_started {env : StartEnv} {reg : Registry}
    {dataset_id : String} {pid : Nat} {bp lp : String}
    (h : (start_inference env reg dataset_id).result = .started pid bp lp) :
    lookupReg (start_inference env reg dataset_id).registry dataset_id =
      some ⟨pid, env.now, bp, lp⟩ := by
  cases hl : lookupReg reg dataset_id with
  | none =>
      simp only [start_inference, hl] at h ⊢
      exact lookupReg_after_core_started h
  | some info =>
      simp only [start_inference, hl] at h ⊢
      by_cases ha : env.pid_exists info.pid = true
      · rw [if_pos ha] at h
        simp at h
      · rw [if_neg ha] at h ⊢
        exact lookupReg_after_core_started h

/-! ### Claims -/

/-- Claim C7: a `stop_inference` call followed immediately by a
`get_inference_status` call for the same dataset id reports
`not_running`, whatever the stop call's environment did (graceful exit,
forced kill, or signal failure): every branch of `stop_inference` that
finds an entry deletes it, and the no-entry branch leaves none to find. -/
theorem stop_then_status_not_running (envS : StopEnv) (envT : StatusEnv)
    (reg : Registry) (dataset_id : String) :
    (get_inference_status envT
      (stop_inference envS reg dataset_id).registry dataset_id).1 =
      .not_running := by
  unfold stop_inference
  cases h : lookupReg reg dataset_id with
  | none => simp [get_inference_status, h]
  | some info =>
      by_cases hb : envS.pid_exists_before info.pid = false <;>
        simp [hb, get_inference_status, lookupReg_eraseReg_self]

/-- Claim C1: a `start_inference` call that finds a registry entry whose
pid is alive returns HTTP 409 `already_running` carrying that live pid,
leaves the registry unchanged and launches nothing; consequently a second
`start_inference` immediately after a successful one (the launched pid
still alive) observes `already_running` with that pid and launches no
second process. -/
theorem start_conflict_already_running (env1 env2 : StartEnv)
    (reg : Registry) (dataset_id : String) :
    (∀ info, lookupReg reg dataset_id = some info →
      env1.pid_exists info.pid = true →
      start_inference env1 reg dataset_id =
        ⟨.alreadyRunning info.pid, reg, []⟩ ∧
      start_http_status (start_inference env1 reg dataset_id).result
        = 409) ∧
    (∀ pid bp lp,
      (start_inference env1 reg dataset_id).result = .started pid bp lp →
      env2.pid_exists pid = true →
      (start_inference env2
        (start_inference env1 reg dataset_id).registry dataset_id).result
          = .alreadyRunning pid ∧
      (start_inference env2
        (start_inference env1 reg dataset_id).registry dataset_id).launched
          = []) := by
  constructor
  · intro info hlk halive
    constructor <;> simp [start_inference, hlk, halive, start_http_status]
  · intro pid bp lp hres halive
    have h2 := lookupReg_after_started hres
    generalize hR : (start_inference env1 reg dataset_id).registry = R
      at h2 ⊢
    constructor <;> simp [start_inference, h2, halive]

def envAllTrue : StartEnv := ⟨fun _ => true, fun _ => true, 42, "now"⟩

def sampleRec : JobRecord := ⟨7, "t0", "b0", "l0"⟩

def sampleReg : Registry := [("d1", sampleRec)]

/-- Witness for C1 at concrete inputs: a registry holding a live pid 7
rejects a start with 409, and a fresh start followed by a second start
sees `already_running 42` for the pid the first call launched. -/
theorem start_conflict_already_running_witness :
    (start_inference envAllTrue sampleReg "d1" =
      ⟨.alreadyRunning 7, sampleReg, []⟩ ∧
     start_http_status (start_inference envAllTrue sampleReg "d1").result
       = 409) ∧
    ((start_inference envAllTrue
        (start_inference envAllTrue [] "d1").registry "d1").result =
      .alreadyRunning 42 ∧
     (start_inference envAllTrue
        (start_inference envAllTrue [] "d1").registry "d1").launched =
      []) := by
  refine ⟨(start_conflict_already_running envAllTrue envAllTrue sampleReg
    "d1").1 sampleRec (by decide) rfl, ?_⟩
  exact (start_conflict_already_running envAllTrue envAllTrue [] "d1").2
    42 (bundle_file "d1") (log_file "d1") (by decide) rfl

/-- Claim C2: a `stop_inference` call that finds an entry with a live pid
delivers SIGINT to the process group, re-checks liveness after the grace
sleep (`pid_exists_after`), delivers SIGKILL to the group exactly when the
process is still alive, and deletes the registry entry unconditionally in
either signal path (the signal-trace part assumes the group resolves and
neither `os.killpg` raises; a raise is the subject of C9 and still deletes
the entry). -/
theorem stop_alive_two_phase (env : StopEnv) (reg : Registry)
    (dataset_id : String) (info : JobRecord) (pg : Nat)
    (hlk : lookupReg reg dataset_id = some info)
    (halive : env.pid_exists_before info.pid = true)
    (hpg : env.getpgid info.pid = some pg)
    (hint : env.sigint_raises = false)
    (hkill : env.sigkill_raises = false) :
    (stop_inference env reg dataset_id).result = .stopped ∧
    (stop_inference env reg dataset_id).registry =
      eraseReg reg dataset_id ∧
    lookupReg (stop_inference env reg dataset_id).registry dataset_id
      = none ∧
    (stop_inference env reg dataset_id).signals =
      ⟨pg, .sigint⟩ ::
        (if env.pid_exists_after info.pid = true then [⟨pg, .sigkill⟩]
         else []) := by
  simp only [stop_inference, hlk]
  rw [if_neg (by simp [halive])]
  refine ⟨rfl, rfl, lookupReg_eraseReg_self _ _, ?_⟩
  simp only [try_signal_group, hpg]
  rw [if_neg (by simp [hint])]
  by_cases ha : env.pid_exists_after info.pid = true
  · rw [if_pos ha, if_pos ha]
    rw [if_neg (by simp [hkill])]
  · rw [if_neg ha, if_neg ha]

def stopEnvGrace : StopEnv :=
  ⟨fun _ => true, fun _ => false, fun _ => some 70, false, false⟩

/-- Witness for C2: pid 7 is alive at the first check, its group is 70,
and it honours SIGINT (dead at the re-check), so only SIGINT is sent and
the entry is gone. -/
theorem stop_alive_two_phase_witness :
    (stop_inference stopEnvGrace sampleReg "d1").result = .stopped ∧
    (stop_inference stopEnvGrace sampleReg "d1").registry =
      eraseReg sampleReg "d1" ∧
    lookupReg (stop_inference stopEnvGrace sampleReg "d1").registry "d1"
      = none ∧
    (stop_inference stopEnvGrace sampleReg "d1").signals =
      [⟨70, .sigint⟩] :=
  stop_alive_two_phase stopEnvGrace sampleReg "d1" sampleRec 70
    (by decide) rfl rfl rfl rfl

/-- Claim C9: when the entry's pid is alive at check time,
`stop_inference` reports `stopped` (HTTP 200) and removes the entry
whatever the signalling oracles do — `os.getpgid`/`os.killpg` raising is
swallowed by the bare `except: pass` — and the only failing response,
404 `not_running`, occurs only when there was no entry at all. -/
theorem stop_swallows_signal_failures (env : StopEnv) (reg : Registry)
    (dataset_id : String) :
    (∀ info, lookupReg reg dataset_id = some info →
      env.pid_exists_before info.pid = true →
      (stop_inference env reg dataset_id).result = .stopped ∧
      stop_http_status (stop_inference env reg dataset_id).result = 200 ∧
      lookupReg (stop_inference env reg dataset_id).registry dataset_id
        = none) ∧
    ((stop_inference env reg dataset_id).result = .not_running →
      lookupReg reg dataset_id = none) := by
  constructor
  · intro info hlk halive
    simp only [stop_inference, hlk]
    rw [if_neg (by simp [halive])]
    exact ⟨rfl, rfl, lookupReg_eraseReg_self _ _⟩
  · intro h
    cases hl : lookupReg reg dataset_id with
    | none => rfl
    | some info =>
        simp only [stop_inference, hl] at h
        by_cases hb : env.pid_exists_before info.pid = false
        · rw [if_pos hb] at h
          simp at h
        · rw [if_neg hb] at h
          simp at h

def stopEnvPgFail : StopEnv :=
  ⟨fun _ => true, fun _ => true, fun _ => none, false, false⟩

/-- Witness for C9: the process group of the live pid 7 cannot be
resolved (`os.getpgid` raises), yet stop still answers `stopped` / 200
and the entry is gone. -/
theorem stop_swallows_signal_failures_witness :
    ((stop_inference stopEnvPgFail sampleReg "d1").result = .stopped ∧
     stop_http_status (stop_inference stopEnvPgFail sampleReg "d1").result
       = 200 ∧
     lookupReg (stop_inference stopEnvPgFail sampleReg "d1").registry "d1"
       = none) ∧
    lookupReg ([] : Registry) "d1" = none :=
  ⟨(stop_swallows_signal_failures stopEnvPgFail sampleReg "d1").1
     sampleRec (by decide) rfl,
   (stop_swallows_signal_failures stopEnvPgFail [] "d1").2 rfl⟩

def stopEnvDead : StopEnv :=
  ⟨fun _ => false, fun _ => false, fun _ => some 70, false, false⟩

/-- Claim C6 counterexample: a stop call on an id whose entry holds a
dead pid is NOT free of side effects on the registry — the stale entry is
reaped, so the registry after the call differs from the registry before
it (the response is the non-error `already_stopped`, and indeed no signal
is sent, but "Registry unchanged" fails). -/
theorem stop_dead_entry_changes_registry :
    (stop_inference stopEnvDead sampleReg "d1").result =
      .already_stopped ∧
    (stop_inference stopEnvDead sampleReg "d1").signals = [] ∧
    (stop_inference stopEnvDead sampleReg "d1").registry ≠ sampleReg := by
  decide

/-- Claim C6 amended: stop on an id in the NOT_RUNNING state sends no
signal to any process group; with no registry entry it returns 404
`not_running` and leaves the registry unchanged, and with an entry whose
pid is dead it returns the non-error `already_stopped` and its only side
effect is removing that stale entry. -/
theorem stop_not_running_idempotent (env : StopEnv) (reg : Registry)
    (dataset_id : String) :
    (lookupReg reg dataset_id = none →
      stop_inference env reg dataset_id = ⟨.not_running, reg, []⟩ ∧
      stop_http_status (stop_inference env reg dataset_id).result
        = 404) ∧
    (∀ info, lookupReg reg dataset_id = some info →
      env.pid_exists_before info.pid = false →
      stop_inference env reg dataset_id =
        ⟨.already_stopped, eraseReg reg dataset_id, []⟩ ∧
      stop_http_status (stop_inference env reg dataset_id).result
        = 200) := by
  constructor
  · intro h
    constructor <;> simp [stop_inference, h, stop_http_status]
  · intro info hlk hdead
    constructor <;> simp [stop_inference, hlk, hdead, stop_http_status]

/-- Witness for the amended C6, both branches: an empty registry answers
404 `not_running`; a dead pid 7 answers `already_stopped`, reaps, and
sends nothing. -/
theorem stop_not_running_idempotent_witness :
    (stop_inference stopEnvDead [] "d1" = ⟨.not_running, [], []⟩ ∧
     stop_http_status (stop_inference stopEnvDead [] "d1").result
       = 404) ∧
    (stop_inference stopEnvDead sampleReg "d1" =
       ⟨.already_stopped, eraseReg sampleReg "d1", []⟩ ∧
     stop_http_status
       (stop_inference stopEnvDead sampleReg "d1").result = 200) :=
  ⟨(stop_not_running_idempotent stopEnvDead [] "d1").1 rfl,
   (stop_not_running_idempotent stopEnvDead sampleReg "d1").2
     sampleRec (by decide) rfl⟩

/-- Claim C4: `get_inference_status` never returns an error: with no
entry it reports `not_running` and touches nothing; with a dead-pid entry
it reaps the entry and reports `stopped`; with a live pid it reports
`running` carrying the sampled cpu/memory values, and a sampling failure
(`sample = none`, the process exiting mid-query) degrades both metrics to
zero instead of failing the call. -/
theorem status_never_errors (env : StatusEnv) (reg : Registry)
    (dataset_id : String) :
    (lookupReg reg dataset_id = none →
      get_inference_status env reg dataset_id = (.not_running, reg)) ∧
    (∀ info, lookupReg reg dataset_id = some info →
      env.pid_exists info.pid = false →
      (get_inference_status env reg dataset_id).1 = .stopped ∧
      lookupReg (get_inference_status env reg dataset_id).2 dataset_id
        = none) ∧
    (∀ info c m, lookupReg reg dataset_id = some info →
      env.pid_exists info.pid = true →
      env.sample info.pid = some (c, m) →
      get_inference_status env reg dataset_id =
        (.running info.pid info.started info.bundle_path info.log_path
          c m, reg)) ∧
    (∀ info, lookupReg reg dataset_id = some info →
      env.pid_exists info.pid = true →
      env.sample info.pid = none →
      get_inference_status env reg dataset_id =
        (.running info.pid info.started info.bundle_path info.log_path
          0 0, reg)) := by
  refine ⟨?_, ?_, ?_, ?_⟩
  · intro h
    simp [get_inference_status, h]
  · intro info hlk hdead
    constructor <;>
      simp [get_inference_status, hlk, hdead, lookupReg_eraseReg_self]
  · intro info c m hlk halive hs
    simp [get_inference_status, hlk, halive, hs]
  · intro info hlk halive hs
    simp [get_inference_status, hlk, halive, hs]

def statusEnvDead : StatusEnv := ⟨fun _ => false, fun _ => some (5, 9)⟩

def statusEnvAlive : StatusEnv := ⟨fun _ => true, fun _ => some (5, 9)⟩

def statusEnvNoSample : StatusEnv := ⟨fun _ => true, fun _ => none⟩

/-- Witness for C4 covering all four branches at concrete inputs,
including the sampling-failure branch degrading to zero metrics. -/
theorem status_never_errors_witness :
    get_inference_status statusEnvAlive [] "d1" = (.not_running, []) ∧
    ((get_inference_status statusEnvDead sampleReg "d1").1 = .stopped ∧
     lookupReg (get_inference_status statusEnvDead sampleReg "d1").2 "d1"
       = none) ∧
    get_inference_status statusEnvAlive sampleReg "d1" =
      (.running 7 "t0" "b0" "l0" 5 9, sampleReg) ∧
    get_inference_status statusEnvNoSample sampleReg "d1" =
      (.running 7 "t0" "b0" "l0" 0 0, sampleReg) :=
  ⟨(status_never_errors statusEnvAlive [] "d1").1 rfl,
   (status_never_errors statusEnvDead sampleReg "d1").2.1
     sampleRec (by decide) rfl,
   (status_never_errors statusEnvAlive sampleReg "d1").2.2.1
     sampleRec 5 9 (by decide) rfl rfl,
   (status_never_errors statusEnvNoSample sampleReg "d1").2.2.2
     sampleRec (by decide) rfl rfl⟩

/-- Claim C5: every entry `list_running_inference` returns has a pid the
liveness oracle reports alive at this very call; every registry binding
whose pid is dead is absent from the registry the call leaves behind; and
every live binding appears in the response carrying its dataset id, pid,
start time and bundle (artifact) path. -/
theorem list_returns_alive_and_reaps (pid_exists : Nat → Bool)
    (reg : Registry) :
    (∀ e ∈ (list_running_inference pid_exists reg).1,
      pid_exists e.pid = true) ∧
    (∀ k rec, lookupReg reg k = some rec → pid_exists rec.pid = false →
      lookupReg (list_running_inference pid_exists reg).2 k = none) ∧
    (∀ k rec, lookupReg reg k = some rec → pid_exists rec.pid = true →
      ListEntry.mk k rec.pid rec.started rec.bundle_path ∈
        (list_running_inference pid_exists reg).1) := by
  refine ⟨?_, ?_, ?_⟩
  · intro e he
    simp only [list_running_inference, List.mem_filterMap] at he
    obtain ⟨⟨k, v⟩, hmem, hf⟩ := he
    by_cases hp : pid_exists v.pid = true
    · simp only [hp, if_pos, Option.some.injEq] at hf
      rw [← hf]
      exact hp
    · simp [hp] at hf
  · intro k rec hlk hdead
    have hmem : (k, rec) ∈ reg := mem_of_lookupReg hlk
    have hdk : k ∈ (reg.filter (fun p => !(pid_exists p.2.pid))).map
        Prod.fst :=
      List.mem_map.2 ⟨(k, rec),
        List.mem_filter.2 ⟨hmem, by simp [hdead]⟩, rfl⟩
    simp only [list_running_inference]
    exact lookupReg_filter_out_key _ _ (containsKey_of_mem hdk)
  · intro k rec hlk halive
    simp only [list_running_inference]
    exact List.mem_filterMap.2
      ⟨(k, rec), mem_of_lookupReg hlk, by simp [halive]⟩

def listReg : Registry := [("d1", ⟨7, "t0", "b0", "l0"⟩),
  ("d2", ⟨8, "t1", "b1", "l1"⟩)]

/-- Witness for C5 on a two-entry registry where only pid 7 is alive:
the response lists exactly the live job, the dead entry is reaped, and
the live entry carries its pid, start time and bundle path. -/
theorem list_returns_alive_and_reaps_witness :
    (fun p => decide (p = 7)) (ListEntry.mk "d1" 7 "t0" "b0").pid
      = true ∧
    lookupReg (list_running_inference (fun p => decide (p = 7))
      listReg).2 "d2" = none ∧
    ListEntry.mk "d1" 7 "t0" "b0" ∈
      (list_running_inference (fun p => decide (p = 7)) listReg).1 :=
  ⟨(list_returns_alive_and_reaps (fun p => decide (p = 7)) listReg).1
     (ListEntry.mk "d1" 7 "t0" "b0") (by decide),
   (list_returns_alive_and_reaps (fun p => decide (p = 7)) listReg).2.1
     "d2" ⟨8, "t1", "b1", "l1"⟩ (by decide) (by decide),
   (list_returns_alive_and_reaps (fun p => decide (p = 7)) listReg).2.2
     "d1" ⟨7, "t0", "b0", "l0"⟩ (by decide) (by decide)⟩

theorem list_no_entry_of_lookupReg_none {alive : Nat → Bool}
    {reg : Registry} {k : String} (h : lookupReg reg k = none) :
    ∀ e ∈ (list_running_inference alive reg).1, e.dataset_id ≠ k := by
  intro e he
  simp only [list_running_inference, List.mem_filterMap] at he
  obtain ⟨⟨k', v⟩, hmem, hf⟩ := he
  by_cases hp : alive v.pid = true
  · simp only [hp, if_pos, Option.some.injEq] at hf
    rw [← hf]
    intro hek
    exact not_mem_of_lookupReg_none h v (by rw [← hek]; exact hmem)
  · simp [hp] at hf

/-- Claim C3: a `start_inference` call on a dataset whose directory
exists but whose bundle artifact file is absent (preprocessing not
complete), with no live entry standing in the way, fails with the
artifact-missing 404 carrying the expected bundle path, launches no
process, and a `list_running_inference` call on the registry it leaves
behind contains no entry for that id. -/
theorem start_artifact_missing (env : StartEnv) (alive : Nat → Bool)
    (reg : Registry) (dataset_id : String)
    (hstale : ∀ info, lookupReg reg dataset_id = some info →
      env.pid_exists info.pid = false)
    (hdir : env.path_exists (dataset_dir dataset_id) = true)
    (hbundle : env.path_exists (bundle_file dataset_id) = false) :
    (start_inference env reg dataset_id).result =
      .artifactMissing (bundle_file dataset_id) ∧
    start_http_status (start_inference env reg dataset_id).result
      = 404 ∧
    (start_inference env reg dataset_id).launched = [] ∧
    ∀ e ∈ (list_running_inference alive
        (start_inference env reg dataset_id).registry).1,
      e.dataset_id ≠ dataset_id := by
  have hcore : ∀ r : Registry, start_inference_core env r dataset_id =
      ⟨.artifactMissing (bundle_file dataset_id), r, []⟩ := by
    intro r
    simp [start_inference_core, hdir, hbundle]
  cases hl : lookupReg reg dataset_id with
  | none =>
      have he : start_inference env reg dataset_id =
          ⟨.artifactMissing (bundle_file dataset_id), reg, []⟩ := by
        simp only [start_inference, hl, hcore]
      rw [he]
      exact ⟨rfl, rfl, rfl, list_no_entry_of_lookupReg_none hl⟩
  | some info =>
      have he : start_inference env reg dataset_id =
          ⟨.artifactMissing (bundle_file dataset_id),
            eraseReg reg dataset_id, []⟩ := by
        simp only [start_inference, hl]
        rw [if_neg (by simp [hstale info hl])]
        exact hcore _
      rw [he]
      exact ⟨rfl, rfl, rfl,
        list_no_entry_of_lookupReg_none (lookupReg_eraseReg_self _ _)⟩

def envNoBundle : StartEnv :=
  ⟨fun _ => false, fun s => decide (s = dataset_dir "d2"), 42, "now"⟩

/-- Witness for C3: dataset `d2` has a directory but no bundle file, and
an empty registry; start answers artifact-missing 404, spawns nothing,
and the follow-up list is empty of `d2`. -/
theorem start_artifact_missing_witness :
    (start_inference envNoBundle [] "d2").result =
      .artifactMissing (bundle_file "d2") ∧
    start_http_status (start_inference envNoBundle [] "d2").result
      = 404 ∧
    (start_inference envNoBundle [] "d2").launched = [] ∧
    (ListEntry.mk "d2" 7 "t0" "b0" ∈ (list_running_inference
        (fun _ => true) (start_inference envNoBundle [] "d2").registry).1
      → False) := by
  have h := start_artifact_missing envNoBundle (fun _ => true) [] "d2"
    (fun info hlk => by simp [lookupReg] at hlk) (by decide) (by decide)
  exact ⟨h.1, h.2.1, h.2.2.1,
    fun hmem => h.2.2.2 (ListEntry.mk "d2" 7 "t0" "b0") hmem rfl⟩

/-- Claim C10: when `start_inference` finds a stale entry (pid dead), it
deletes that entry before the filesystem checks, so even a start that
then fails — dataset directory missing, or bundle artifact missing —
leaves the registry without the stale entry: a failed start is not
registry-preserving in the presence of a stale dead entry. -/
theorem start_failure_reaps_stale_entry (env : StartEnv)
    (reg : Registry) (dataset_id : String) (info : JobRecord)
    (hlk : lookupReg reg dataset_id = some info)
    (hdead : env.pid_exists info.pid = false) :
    (env.path_exists (dataset_dir dataset_id) = false →
      (start_inference env reg dataset_id).result = .datasetNotFound ∧
      (start_inference env reg dataset_id).registry =
        eraseReg reg dataset_id ∧
      lookupReg (start_inference env reg dataset_id).registry dataset_id
        = none) ∧
    (env.path_exists (dataset_dir dataset_id) = true →
      env.path_exists (bundle_file dataset_id) = false →
      (start_inference env reg dataset_id).result =
        .artifactMissing (bundle_file dataset_id) ∧
      (start_inference env reg dataset_id).registry =
        eraseReg reg dataset_id ∧
      lookupReg (start_inference env reg dataset_id).registry dataset_id
        = none) := by
  have hred : start_inference env reg dataset_id =
      start_inference_core env (eraseReg reg dataset_id) dataset_id := by
    simp only [start_inference, hlk]
    rw [if_neg (by simp [hdead])]
  constructor
  · intro h1
    rw [hred]
    simp [start_inference_core, h1, lookupReg_eraseReg_self]
  · intro h1 h2
    rw [hred]
    simp [start_inference_core, h1, h2, lookupReg_eraseReg_self]

def envNothing : StartEnv :=
  ⟨fun _ => false, fun _ => false, 42, "now"⟩

/-- Witness for C10, both failure shapes: a registry holding a stale
dead-pid entry for `d1` loses that entry when start fails on a missing
dataset directory, and likewise (via `envNoBundle`, whose oracle knows
only `d2`'s directory) when start fails on a missing bundle. -/
theorem start_failure_reaps_stale_entry_witness :
    ((start_inference envNothing sampleReg "d1").result =
       .datasetNotFound ∧
     (start_inference envNothing sampleReg "d1").registry =
       eraseReg sampleReg "d1" ∧
     lookupReg (start_inference envNothing sampleReg "d1").registry "d1"
       = none) ∧
    ((start_inference envNoBundle [("d2", sampleRec)] "d2").result =
       .artifactMissing (bundle_file "d2") ∧
     (start_inference envNoBundle [("d2", sampleRec)] "d2").registry =
       eraseReg [("d2", sampleRec)] "d2" ∧
     lookupReg (start_inference envNoBundle [("d2", sampleRec)] "d2"
       ).registry "d2" = none) :=
  ⟨(start_failure_reaps_stale_entry envNothing sampleReg "d1" sampleRec
      (by decide) rfl).1 rfl,
   (start_failure_reaps_stale_entry envNoBundle [("d2", sampleRec)] "d2"
      sampleRec (by decide) rfl).2 (by decide) (by decide)⟩

/-! ### Decimal printing facts, for the dataset-id claims -/

/-- Decimal digit characters of `n`, most significant first: the list
`Nat.toDigitsCore` builds once its fuel suffices. -/
def gdigits (n : Nat) : List Char :=
  if _h : n < 10 then [Nat.digitChar n]
  else gdigits (n / 10) ++ [Nat.digitChar (n % 10)]
termination_by n
decreasing_by exact Nat.div_lt_self (by omega) (by omega)

theorem toDigitsCore_eq_gdigits :
    ∀ (fuel n : Nat) (ds : List Char), n < fuel →
      Nat.toDigitsCore 10 fuel n ds = gdigits n ++ ds := by
  intro fuel
  induction fuel with
  | zero => intro n ds h; omega
  | succ f ih =>
      intro n ds h
      simp only [Nat.toDigitsCore]
      by_cases h0 : n / 10 = 0
      · rw [if_pos h0]
        have hn : n < 10 := by omega
        rw [gdigits, dif_pos hn]
        have : n % 10 = n := Nat.mod_eq_of_lt hn
        rw [this]
        rfl
      · rw [if_neg h0]
        have hn : ¬ n < 10 := by omega
        have hlt : n / 10 < f := by
          have hx : n / 10 < n := Nat.div_lt_self (by omega) (by omega)
          omega
        rw [gdigits, dif_neg hn]
        rw [ih (n / 10) (Nat.digitChar (n % 10) :: ds) hlt]
        simp

/-- Horner-style decoding of a decimal digit-character list. -/
def decodeDigits (cs : List Char) (acc : Nat) : Nat :=
  match cs with
  | [] => acc
  | c :: rest => decodeDigits rest (acc * 10 + (c.toNat - '0'.toNat))

theorem decodeDigits_append (l1 l2 : List Char) : ∀ acc,
    decodeDigits (l1 ++ l2) acc = decodeDigits l2 (decodeDigits l1 acc)
    := by
  induction l1 with
  | nil => intro acc; rfl
  | cons c rest ih => intro acc; simp [decodeDigits, ih]

theorem digitChar_decode {d : Nat} (hd : d < 10) :
    (Nat.digitChar d).toNat - '0'.toNat = d := by
  interval_cases d <;> decide

theorem decode_gdigits (n : Nat) : ∀ acc,
    decodeDigits (gdigits n) acc = acc * 10 ^ (gdigits n).length + n
    := by
  induction n using Nat.strong_induction_on with
  | _ n ih =>
    intro acc
    by_cases h : n < 10
    · rw [gdigits, dif_pos h]
      simp only [decodeDigits]
      rw [digitChar_decode h, List.length_cons, List.length_nil, pow_one]
    · rw [gdigits, dif_neg h]
      rw [decodeDigits_append]
      have hdiv : n / 10 < n := Nat.div_lt_self (by omega) (by omega)
      rw [ih (n / 10) hdiv]
      simp only [decodeDigits]
      rw [digitChar_decode (Nat.mod_lt _ (by omega))]
      rw [List.length_append]
      simp only [List.length_cons, List.length_nil]
      generalize (gdigits (n / 10)).length = L
      rw [pow_succ]
      rw [show acc * (10 ^ L * 10) = acc * 10 ^ L * 10 by ring]
      generalize acc * 10 ^ L = A
      omega

theorem gdigits_injective : Function.Injective gdigits := by
  intro a b h
  have ha := decode_gdigits a 0
  have hb := decode_gdigits b 0
  rw [h] at ha
  omega

theorem repr_eq_gdigits (n : Nat) : Nat.repr n = (gdigits n).asString
    := by
  show (Nat.toDigits 10 n).asString = _
  unfold Nat.toDigits
  rw [toDigitsCore_eq_gdigits (n + 1) n [] (Nat.lt_succ_self n)]
  simp

theorem string_data_injective {s t : String} (h : s.data = t.data) :
    s = t := by
  cases s with
  | mk l1 =>
      cases t with
      | mk l2 =>
          have hl : l1 = l2 := by simpa using h
          rw [hl]

theorem nat_toString_injective :
    Function.Injective (fun n : Nat => toString n) := by
  intro a b h
  apply gdigits_injective
  have h' : toString a = toString b := h
  have ha : toString a = (gdigits a).asString := repr_eq_gdigits a
  have hb : toString b = (gdigits b).asString := repr_eq_gdigits b
  rw [ha, hb] at h'
  exact congrArg String.data h'

theorem string_append_data (s t : String) :
    (s ++ t).data = s.data ++ t.data := by
  cases s
  cases t
  rfl

/-- Claim C8 counterexample: two distinct creation instants, 5200 ms and
5900 ms after the epoch, are distinct create calls, yet the truncating
id scheme `f"dataset_{int(datetime.now().timestamp())}"` hands both the
SAME dataset id (the integer second is 5 for both), so ids are not
unique per create call and the shared id names the directory of both
calls. -/
theorem dataset_id_collision :
    (5200 : Nat) ≠ 5900 ∧
    dataset_id_at_millis 5200 = dataset_id_at_millis 5900 ∧
    dataset_dir (dataset_id_at_millis 5200) =
      dataset_dir (dataset_id_at_millis 5900) := by
  refine ⟨by decide, rfl, rfl⟩

/-- Claim C8 amended: the id allocated by create is derived from the
clock reading truncated to whole seconds, so two create calls receive
the same dataset id exactly when their readings fall in the same integer
second; ids are unique (and hence name at most one directory) only
across calls whose integer seconds differ, not per call
unconditionally. -/
theorem dataset_id_unique_iff_distinct_seconds (t1 t2 : Nat) :
    dataset_id_at_millis t1 = dataset_id_at_millis t2 ↔
      t1 / 1000 = t2 / 1000 := by
  constructor
  · intro h
    have hd := congrArg String.data h
    simp only [dataset_id_at_millis, gen_dataset_id] at hd
    rw [string_append_data, string_append_data] at hd
    have hs : toString (t1 / 1000) = toString (t2 / 1000) :=
      string_data_injective (List.append_cancel_left hd)
    exact nat_toString_injective hs
  · intro h
    simp [dataset_id_at_millis, gen_dataset_id, h]

end VMApi
